import Mathlib

/-!
Verification of the file-backed service discovery layer of dubbo-go
(`registry/file/service_discovery.go`) and of the metrics configuration
accessors (`config` package, `MetricConfig`).

The Go code is shallowly embedded: structs become Lean structures, Go maps
become association lists with first-match lookup, Go's `error` results become
`Except String`, and external effects (the file-backed dynamic configuration
store, `os.Remove`, `Close`) are modelled either from the spec's contract for
the store (§4.1) or as oracle inputs supplying the effect's outcome.
-/

namespace DubboGo

/-- First-match association-list lookup, the model of reading a Go map. -/
def lookupA {α β : Type} [DecidableEq α] : List (α × β) → α → Option β
  | [], _ => none
  | (k, v) :: rest, a => if k = a then some v else lookupA rest a

/-- Overwriting insert, the model of `m[k] = v` on a Go map. -/
def insertA {α β : Type} [DecidableEq α] (l : List (α × β)) (a : α) (b : β) :
    List (α × β) :=
  (a, b) :: l.filter (fun e => e.1 ≠ a)

/-- Key removal, the model of `delete(m, k)` on a Go map. -/
def eraseA {α β : Type} [DecidableEq α] (l : List (α × β)) (a : α) :
    List (α × β) :=
  l.filter (fun e => e.1 ≠ a)

/-- The `registry.DefaultServiceInstance` value model (spec §3): id, service
name, host, port, metadata and health flag.  The port is Go's `int`. -/
structure ServiceInstance where
  id : String
  serviceName : String
  host : String
  port : Int
  metadata : List (String × String)
  healthy : Bool
deriving DecidableEq, Repr

/-- Translation of `getServiceInstanceId` (service_discovery.go lines
160-166): the instance's id, or `host + "." + strconv.Itoa(port)` when the id
field is empty. -/
def getServiceInstanceId (si : ServiceInstance) : String :=
  if si.id = "" then si.host ++ "." ++ toString si.port else si.id

/-- Translation of `getServiceName` (lines 169-171). -/
def getServiceName (si : ServiceInstance) : String :=
  si.serviceName

/-- The content of one stored configuration record: either the JSON document
produced by `json.Marshal` of a `ServiceInstance` (kept abstract as the
instance itself, since marshalling is injective on this struct and
`json.Unmarshal` into `DefaultServiceInstance` inverts it), or malformed
content that `json.Unmarshal` rejects. -/
inductive Content where
  | json (si : ServiceInstance)
  | raw (s : String)
deriving DecidableEq, Repr

/-- Model of `json.Unmarshal([]byte(p), dsi)` used by `GetInstances` (line
237): succeeds exactly on well-formed JSON documents of instances. -/
def unmarshal : Content → Option ServiceInstance
  | .json si => some si
  | .raw _ => none

/-- Translation of `getContent` (lines 174-180): `json.Marshal` of the
instance.  Marshalling this struct (strings, int, map, bool) cannot fail, so
the error branch of the source is unreachable and the result is always ok. -/
def getContent (si : ServiceInstance) : Except String Content :=
  .ok (Content.json si)

end DubboGo

namespace DubboGo

/-! ### Metrics configuration (`config` package, `MetricConfig`) -/

/-- Go's `time.Second` in nanoseconds (`time.Duration` is an int64 count of
nanoseconds). -/
def timeSecond : Int := 1000000000

/-- `defaultGlobalInterval = 60 * time.Second` (part_000 line 30). -/
def defaultGlobalInterval : Int := 60 * timeSecond

/-- The fields of `MetricConfig` (part_000 lines 36-74) that the interval
accessors read: `GlobalInterval` and the nil-able `LevelInterval` map from
metric level to duration. -/
structure MetricConfig where
  globalInterval : Int
  levelInterval : Option (List (Int × Int))
deriving DecidableEq, Repr

/-- Translation of `GetGlobalInterval` (part_000 lines 109-114): the default
whenever the configured value is `<= time.Second`, the configured value
otherwise. -/
def MetricConfig.GetGlobalInterval (mc : MetricConfig) : Int :=
  if mc.globalInterval ≤ timeSecond then defaultGlobalInterval
  else mc.globalInterval

/-- Translation of `GetLevelInterval` (part_000 lines 98-107): global fallback
when the map is nil; the entry when present and `>= time.Second`; the global
fallback otherwise. -/
def MetricConfig.GetLevelInterval (mc : MetricConfig) (metricLevel : Int) :
    Int :=
  match mc.levelInterval with
  | none => mc.GetGlobalInterval
  | some m =>
    match lookupA m metricLevel with
    | some result =>
      if timeSecond ≤ result then result else mc.GetGlobalInterval
    | none => mc.GetGlobalInterval

end DubboGo

namespace DubboGo

/-! ### The file-backed dynamic configuration store

`file.FileSystemDynamicConfiguration` is repository code outside the given
sources; it is modelled from the spec's store contract (§4.1) as a flat list
of records keyed by `(group, key)`. -/

/-- Modelled from the spec: the Configuration Store's persisted state — one
record per `(group, key)` pair, the file backend's one-file-per-key layout
under one directory per group (spec §4.1, §6). -/
structure Store where
  entries : List ((String × String) × Content)
deriving DecidableEq, Repr

/-- Modelled from the spec: `PublishConfig(key, group, content)` writes or
overwrites the record for `(group, key)` (spec §4.1). -/
def Store.publishConfig (s : Store) (key group : String) (c : Content) :
    Store :=
  ⟨insertA s.entries (group, key) c⟩

/-- Modelled from the spec: `RemoveConfig(key, group)` deletes the record;
an absent record is not an error (spec §4.1), so removal is total. -/
def Store.removeConfig (s : Store) (key group : String) : Store :=
  ⟨eraseA s.entries (group, key)⟩

/-- The keys currently stored under a group, in storage order. -/
def Store.keysByGroup (s : Store) (group : String) : List String :=
  (s.entries.filter (fun e => e.1.1 = group)).map (fun e => e.1.2)

/-- Modelled from the spec: `GetConfigKeysByGroup(group)` lists all keys under
a group; a missing group yields the empty set, not an error (spec §4.1). -/
def Store.getConfigKeysByGroup (s : Store) (group : String) :
    Except String (List String) :=
  .ok (s.keysByGroup group)

/-- Modelled from the spec: `GetProperties(key, group)` returns the raw
content, failing with a not-found error when the record is absent
(spec §4.1). -/
def Store.getProperties (s : Store) (key group : String) :
    Except String Content :=
  match lookupA s.entries (group, key) with
  | some c => .ok c
  | none => .error ("not found: " ++ group ++ "/" ++ key)

/-- Modelled from the spec: `GetPath(key, group)` — the on-disk path
`<root>/<group>/<key>` of a record (spec §6 layout
`<home>/.dubbo/registry/<serviceName>/<instanceId>`). -/
def getPath (rootPath key group : String) : String :=
  rootPath ++ "/" ++ group ++ "/" ++ key

/-! ### The file-backed service discovery client -/

/-- Translation of the `fileSystemServiceDiscovery` struct (lines 59-63): the
dynamic configuration store (represented by its persisted state), the root
path, and the local file-tracking map `fileMap` from instance id to the path
last written for it.  The struct has no field for discovery-level
listeners. -/
structure fileSystemServiceDiscovery where
  store : Store
  rootPath : String
  fileMap : List (String × String)
deriving DecidableEq, Repr

/-- Translation of `Register` (lines 143-157): derive the id and service
name, marshal the instance, publish it under `(id, serviceName)` and on
success record `id ↦ path` in the file-tracking map. -/
def fileSystemServiceDiscovery.Register (fssd : fileSystemServiceDiscovery)
    (ins : ServiceInstance) : Except String fileSystemServiceDiscovery :=
  let id := getServiceInstanceId ins
  let sn := getServiceName ins
  match getContent ins with
  | .error e => .error e
  | .ok c =>
    .ok { fssd with
          store := fssd.store.publishConfig id sn c,
          fileMap := insertA fssd.fileMap id (getPath fssd.rootPath id sn) }

/-- Translation of `Update` (lines 183-185): exactly `Register`. -/
def fileSystemServiceDiscovery.Update (fssd : fileSystemServiceDiscovery)
    (ins : ServiceInstance) : Except String fileSystemServiceDiscovery :=
  fssd.Register ins

/-- Translation of `Unregister` (lines 188-197): derive the id and service
name, remove the record, and on success delete the file-tracking entry — the
source deletes under `instance.GetId()` (line 194), the raw id field, not the
derived id computed at line 189. -/
def fileSystemServiceDiscovery.Unregister (fssd : fileSystemServiceDiscovery)
    (ins : ServiceInstance) : Except String fileSystemServiceDiscovery :=
  let id := getServiceInstanceId ins
  let sn := getServiceName ins
  .ok { fssd with
        store := fssd.store.removeConfig id sn,
        fileMap := eraseA fssd.fileMap ins.id }

/-- Translation of the body of `GetInstances` (lines 221-249), parametrized
by the outcomes of the two store calls it makes: on a key-listing error it
returns the empty slice; otherwise it folds over the keys, skipping every key
whose read fails or whose content does not unmarshal, and collecting the
successfully decoded instances. -/
def getInstancesImpl (keys : Except String (List String))
    (getProps : String → Except String Content) : List ServiceInstance :=
  match keys with
  | .error _ => []
  | .ok ks =>
    ks.filterMap (fun id =>
      match getProps id with
      | .error _ => none
      | .ok p => unmarshal p)

/-- `GetInstances` (lines 221-249) applied to this client's store. -/
def fileSystemServiceDiscovery.GetInstances
    (fssd : fileSystemServiceDiscovery) (serviceName : String) :
    List ServiceInstance :=
  getInstancesImpl (fssd.store.getConfigKeysByGroup serviceName)
    (fun id => fssd.store.getProperties id serviceName)

/-- Translation of `Destroy` (lines 125-133).  `Close` and the per-file
`os.Remove` (via `releaseAndRemoveRegistrationFiles`, lines 136-138) are
external effects whose outcomes are oracle inputs; the source discards the
result of `Close` at line 126, discards every removal outcome, and returns
nil. -/
def fileSystemServiceDiscovery.Destroy (fssd : fileSystemServiceDiscovery)
    (closeResult : Except String Unit)
    (removeResult : String → Except String Unit) : Except String Unit :=
  let _closeOutcome := closeResult
  let _removeOutcomes := fssd.fileMap.map (fun e => removeResult e.2)
  .ok ()

/-- A discovery-level change listener (`registry.ServiceInstancesChangedListener`):
only its service name matters at this layer. -/
structure ChangedListener where
  serviceName : String
deriving DecidableEq, Repr

/-- Translation of `AddListener` (lines 272-275): the registration call in
the body is commented out, so the client state is unchanged and nil is
returned. -/
def fileSystemServiceDiscovery.AddListener
    (fssd : fileSystemServiceDiscovery) (_listener : ChangedListener) :
    Except String fileSystemServiceDiscovery :=
  .ok fssd

/-- A notification delivered to a subscriber: the service name and the full
instance snapshot (spec §6 change-event shape). -/
structure Notification where
  serviceName : String
  instances : List ServiceInstance
deriving DecidableEq, Repr

/-- The client's mutating operations. -/
inductive Op where
  | register (ins : ServiceInstance)
  | update (ins : ServiceInstance)
  | unregister (ins : ServiceInstance)
  | addListener (l : ChangedListener)
deriving DecidableEq, Repr

/-- Instrumented semantics of one operation: the resulting state together
with the list of listener notifications the operation performs.  `Register`
(lines 143-157), `Update` (183-185), `Unregister` (188-197) and `AddListener`
(272-275) contain no dispatch and no listener invocation, so each emits the
empty list. -/
def fileSystemServiceDiscovery.step (fssd : fileSystemServiceDiscovery) :
    Op → Except String fileSystemServiceDiscovery × List Notification
  | .register ins => (fssd.Register ins, [])
  | .update ins => (fssd.Update ins, [])
  | .unregister ins => (fssd.Unregister ins, [])
  | .addListener l => (fssd.AddListener l, [])

end DubboGo

namespace DubboGo

/-! ### The instance cache and the constructor -/

/-- `constant.FILE_KEY`, the backend key of the file implementation. -/
def FILE_KEY : String := "file"

/-- A named service-discovery configuration entry; only the protocol field is
consulted by the constructor (line 81). -/
structure ServiceDiscoveryConfig where
  protocol : String
deriving DecidableEq, Repr

/-- The process-wide construction state: the `instanceMap` cache (line 49)
mapping backend names to constructed clients — each client represented by the
ordinal of its construction — and the count of constructions performed so far,
which doubles as the identity of the next client to be built. -/
structure RegistryGlobal where
  instanceMap : List (String × Nat)
  constructed : Nat
deriving DecidableEq, Repr

/-- Translation of `newFileSystemServiceDiscovery` (lines 65-116).  Oracles
supply the surrounding collaborators: the configured discovery entries
(`config.GetBaseConfig().GetServiceDiscoveries`), the outcome of
`file.Home()`, and whether the store factory's `GetDynamicConfiguration`
succeeds.  Fast-path cache lookup, lock, double-checked lookup, config
validation, home and factory resolution — and on success the function
returns the freshly built client directly: no assignment to `instanceMap`
appears anywhere in the source body, so the returned global state carries the
cache unchanged. -/
def newFileSystemServiceDiscovery
    (getServiceDiscoveries : String → Option ServiceDiscoveryConfig)
    (homeResult : Except String String)
    (getDynamicConfigurationOk : Bool)
    (g : RegistryGlobal) (name : String) :
    Except String (RegistryGlobal × Nat) :=
  match lookupA g.instanceMap name with
  | some inst => .ok (g, inst)
  | none =>
    match lookupA g.instanceMap name with
    | some inst => .ok (g, inst)
    | none =>
      match getServiceDiscoveries name with
      | none => .error "could not init the instance because the config is invalid"
      | some sdc =>
        if sdc.protocol ≠ FILE_KEY then
          .error "could not init the instance because the config is invalid"
        else
          match homeResult with
          | .error e => .error e
          | .ok _rp =>
            if getDynamicConfigurationOk then
              .ok ({ g with constructed := g.constructed + 1 }, g.constructed)
            else
              .error ("could not find the config for name: " ++ name)

end DubboGo

namespace DubboGo

/-! ### Well-formedness and sample values used by the theorems -/

/-- One store entry is well formed when JSON content decodes to an instance
whose derived id equals the key it is filed under — the invariant of spec §3
("Key: id. Group: serviceName") that `Register` establishes.  Malformed
content is unconstrained: it decodes to no instance at all. -/
def entryWF (e : (String × String) × Content) : Bool :=
  match e.2 with
  | .json si => getServiceInstanceId si = e.1.2
  | .raw _ => true

/-- A store is well formed when every entry is. -/
def StoreWF (s : Store) : Prop :=
  ∀ e ∈ s.entries, entryWF e = true

instance (s : Store) : Decidable (StoreWF s) :=
  List.decidableBAll (fun e => entryWF e = true) s.entries

/-- The default registry root of the file backend (spec §4.1). -/
def sampleRoot : String := "/root/.dubbo/registry"

/-- A freshly constructed client over an empty store. -/
def emptyClient : fileSystemServiceDiscovery :=
  ⟨⟨[]⟩, sampleRoot, []⟩

/-- The spec §8 scenario instance: empty id, host `h1`, port 20880, service
`Greeter`. -/
def greeterInstance : ServiceInstance :=
  ⟨"", "Greeter", "h1", 20880, [], true⟩

/-- The client state `emptyClient.Register greeterInstance` produces: the
record is stored under the derived key `h1.20880` and the file-tracking map
holds that key's path. -/
def greeterRegistered : fileSystemServiceDiscovery :=
  ⟨⟨[(("Greeter", "h1.20880"), Content.json greeterInstance)]⟩, sampleRoot,
   [("h1.20880", "/root/.dubbo/registry/Greeter/h1.20880")]⟩

/-- The client state `greeterRegistered.Unregister greeterInstance` produces:
the stored record is gone, but the file-tracking entry `h1.20880` survives
because the deletion used the raw (empty) id field. -/
def greeterUnregistered : fileSystemServiceDiscovery :=
  ⟨⟨[]⟩, sampleRoot, [("h1.20880", "/root/.dubbo/registry/Greeter/h1.20880")]⟩

/-- A client whose store holds one corrupted record and one valid record
under the `Greeter` group. -/
def mixedClient : fileSystemServiceDiscovery :=
  ⟨⟨[(("Greeter", "bad"), Content.raw "corrupt"),
     (("Greeter", "h1.20880"), Content.json greeterInstance)]⟩, sampleRoot, []⟩

/-- A configuration table declaring one file-protocol backend named
`backendA`. -/
def backendAConfig : String → Option ServiceDiscoveryConfig :=
  fun n => if n = "backendA" then some ⟨"file"⟩ else none

end DubboGo

namespace DubboGo

/-! ### Helper lemmas -/

/-- A successful association lookup exhibits a member of the list. -/
theorem lookupA_eq_some_mem {α β : Type} [DecidableEq α]
    {l : List (α × β)} {a : α} {b : β} (h : lookupA l a = some b) :
    (a, b) ∈ l := by
  induction l with
  | nil => simp [lookupA] at h
  | cons e rest ih =>
    obtain ⟨k, v⟩ := e
    simp only [lookupA] at h
    by_cases hk : k = a
    · simp [hk] at h
      subst hk
      subst h
      exact List.mem_cons_self _ _
    · simp [hk] at h
      exact List.mem_cons_of_mem _ (ih h)

/-- Membership characterization for the body of `GetInstances`: an instance
is returned exactly when some listed key reads back as its JSON document. -/
theorem mem_getInstancesImpl {ks : List String}
    {gp : String → Except String Content} {si : ServiceInstance} :
    si ∈ getInstancesImpl (.ok ks) gp ↔
      ∃ id, id ∈ ks ∧ gp id = .ok (Content.json si) := by
  simp only [getInstancesImpl, List.mem_filterMap]
  constructor
  · rintro ⟨id, hid, hmatch⟩
    refine ⟨id, hid, ?_⟩
    cases hgp : gp id with
    | error e => rw [hgp] at hmatch; simp at hmatch
    | ok p =>
      rw [hgp] at hmatch
      cases p with
      | json s => simp [unmarshal] at hmatch; rw [hmatch]
      | raw s => simp [unmarshal] at hmatch
  · rintro ⟨id, hid, hgp⟩
    exact ⟨id, hid, by rw [hgp]; simp [unmarshal]⟩

/-- Publishing a record lists its key under its group. -/
theorem keysByGroup_publish_self (s : Store) (key group : String)
    (c : Content) : key ∈ (s.publishConfig key group c).keysByGroup group := by
  simp [Store.publishConfig, Store.keysByGroup, insertA, List.filter_cons]

/-- Publishing a record makes its content readable at its key. -/
theorem getProperties_publish_self (s : Store) (key group : String)
    (c : Content) :
    (s.publishConfig key group c).getProperties key group = .ok c := by
  simp [Store.publishConfig, Store.getProperties, insertA, lookupA]

end DubboGo

namespace DubboGo

/-- C10: `GetGlobalInterval` returns the configured value only when it is
strictly greater than one second; any configured value `≤ 1s` (one second
itself, zero, negative) yields the 60-second default, and `GetLevelInterval`
falls back to `GetGlobalInterval` when the level map is nil, the entry is
absent, or the entry is below one second. -/
theorem metricConfig_interval_fallback :
    (∀ mc : MetricConfig, timeSecond < mc.globalInterval →
      mc.GetGlobalInterval = mc.globalInterval) ∧
    (∀ mc : MetricConfig, mc.globalInterval ≤ timeSecond →
      mc.GetGlobalInterval = 60 * timeSecond) ∧
    (∀ mc : MetricConfig, mc.levelInterval = none →
      ∀ lvl : Int, mc.GetLevelInterval lvl = mc.GetGlobalInterval) ∧
    (∀ (mc : MetricConfig) (m : List (Int × Int)) (lvl : Int),
      mc.levelInterval = some m → lookupA m lvl = none →
      mc.GetLevelInterval lvl = mc.GetGlobalInterval) ∧
    (∀ (mc : MetricConfig) (m : List (Int × Int)) (lvl r : Int),
      mc.levelInterval = some m → lookupA m lvl = some r → r < timeSecond →
      mc.GetLevelInterval lvl = mc.GetGlobalInterval) := by
  refine ⟨?_, ?_, ?_, ?_, ?_⟩
  · intro mc h
    simp [MetricConfig.GetGlobalInterval, not_le.mpr h]
  · intro mc h
    simp [MetricConfig.GetGlobalInterval, h, defaultGlobalInterval]
  · intro mc h lvl
    simp [MetricConfig.GetLevelInterval, h]
  · intro mc m lvl hm hl
    simp [MetricConfig.GetLevelInterval, hm, hl]
  · intro mc m lvl r hm hl hr
    simp [MetricConfig.GetLevelInterval, hm, hl, not_le.mpr hr]

/-- Witness for C10: concrete configurations exercising every branch — a 2s
global interval is returned as configured; exactly 1s falls back to 60s; a nil
level map, an absent level entry and a half-second level entry all fall back
to the global interval. -/
theorem metricConfig_interval_fallback_witness :
    (MetricConfig.GetGlobalInterval ⟨2000000000, none⟩ = 2000000000) ∧
    (MetricConfig.GetGlobalInterval ⟨1000000000, none⟩ = 60 * timeSecond) ∧
    (MetricConfig.GetLevelInterval ⟨0, none⟩ 3 =
      MetricConfig.GetGlobalInterval ⟨0, none⟩) ∧
    (MetricConfig.GetLevelInterval ⟨0, some [(1, 5000000000)]⟩ 3 =
      MetricConfig.GetGlobalInterval ⟨0, some [(1, 5000000000)]⟩) ∧
    (MetricConfig.GetLevelInterval ⟨0, some [(3, 500000000)]⟩ 3 =
      MetricConfig.GetGlobalInterval ⟨0, some [(3, 500000000)]⟩) :=
  ⟨metricConfig_interval_fallback.1 ⟨2000000000, none⟩ (by decide),
   metricConfig_interval_fallback.2.1 ⟨1000000000, none⟩ (by decide),
   metricConfig_interval_fallback.2.2.1 ⟨0, none⟩ rfl 3,
   metricConfig_interval_fallback.2.2.2.1 ⟨0, some [(1, 5000000000)]⟩
     [(1, 5000000000)] 3 rfl (by decide),
   metricConfig_interval_fallback.2.2.2.2 ⟨0, some [(3, 500000000)]⟩
     [(3, 500000000)] 3 500000000 rfl (by decide) (by decide)⟩

end DubboGo

namespace DubboGo

/-- C1: the claim says a successful first construction for a name inserts the
client into the process-wide `instanceMap` so that a repeat call returns the
same instance without a second construction.  Evaluation at a valid
`backendA` configuration refutes this: the first successful call leaves the
cache empty (the source body contains no write to `instanceMap`), and a
second identical call performs a second construction and returns a different
instance (identity 1, not 0). -/
theorem newFileSystemServiceDiscovery_not_cached :
    newFileSystemServiceDiscovery backendAConfig (.ok "/root") true
        ⟨[], 0⟩ "backendA" = .ok (⟨[], 1⟩, 0) ∧
    newFileSystemServiceDiscovery backendAConfig (.ok "/root") true
        ⟨[], 1⟩ "backendA" = .ok (⟨[], 2⟩, 1) :=
  ⟨rfl, rfl⟩

/-- C2: the claim says a listener registered through `AddListener` is called
back at least once after any successful Register/Update/Unregister for its
service name.  In the code, `AddListener` returns the client unchanged (its
registration call is commented out) and every mutating operation performs
zero listener notifications, so the callback count after any such sequence is
zero, never at least one. -/
theorem addListener_no_callback :
    ∀ (fssd : fileSystemServiceDiscovery) (l : ChangedListener)
      (ins : ServiceInstance),
      fssd.AddListener l = .ok fssd ∧
      (fssd.step (Op.register ins)).2 = [] ∧
      (fssd.step (Op.update ins)).2 = [] ∧
      (fssd.step (Op.unregister ins)).2 = [] :=
  fun _ _ _ => ⟨rfl, rfl, rfl, rfl⟩

/-- C3: the claim says file-removal failures are swallowed but a failure to
close the store propagates.  In the code, `Destroy` discards the result of
`Close()` (line 126) just as it discards every removal outcome, and returns
nil unconditionally: even with a failing close it returns success. -/
theorem destroy_swallows_close_error :
    ∀ (fssd : fileSystemServiceDiscovery)
      (rm : String → Except String Unit) (e : String),
      fssd.Destroy (.error e) rm = .ok () ∧
      fssd.Destroy (.ok ()) (fun _ => .error "remove failed") = .ok () :=
  fun _ _ _ => ⟨rfl, rfl⟩

/-- C4: the claim says the tracking entry stored under the derived id is
removed by a successful Unregister, in particular for an instance with an
empty id field.  Evaluation at the spec §8 scenario instance (empty id, host
`h1`, port 20880) refutes the removal clause: Register files the entry under
the derived key `h1.20880`, but Unregister deletes under the raw id `""`
(line 194 uses `instance.GetId()`, not the derived id computed at line 189),
so after a successful Register-then-Unregister the entry is still present. -/
theorem unregister_leaves_stale_fileMap_entry :
    (emptyClient.Register greeterInstance).bind
        (fun s => s.Unregister greeterInstance) = .ok greeterUnregistered ∧
    lookupA greeterUnregistered.fileMap (getServiceInstanceId greeterInstance)
      = some "/root/.dubbo/registry/Greeter/h1.20880" :=
  ⟨rfl, rfl⟩

/-- C5: after a successful `Register x`, `GetInstances x.serviceName`
contains a record that deserializes to a value equal to `x` in all fields
(the membership is of the full `ServiceInstance` value, so id, service name,
host, port, metadata and health flag all agree). -/
theorem register_getInstances_roundtrip
    (fssd fssd2 : fileSystemServiceDiscovery) (x : ServiceInstance)
    (h : fssd.Register x = .ok fssd2) :
    x ∈ fssd2.GetInstances x.serviceName := by
  simp only [fileSystemServiceDiscovery.Register, getContent] at h
  injection h with h
  subst h
  unfold fileSystemServiceDiscovery.GetInstances Store.getConfigKeysByGroup
  exact mem_getInstancesImpl.mpr
    ⟨getServiceInstanceId x,
     keysByGroup_publish_self _ _ _ _,
     getProperties_publish_self _ _ _ _⟩

/-- Witness for C5: registering the `Greeter` scenario instance on an empty
client makes it a member of the subsequent `GetInstances "Greeter"` result. -/
theorem register_getInstances_roundtrip_witness :
    greeterInstance ∈ greeterRegistered.GetInstances
      greeterInstance.serviceName :=
  register_getInstances_roundtrip emptyClient greeterRegistered
    greeterInstance rfl

/-- C6: on a well-formed store (every JSON record filed under its instance's
derived id, as `Register` files them), a successful `Unregister x` leaves no
instance with `x`'s (derived) id in `GetInstances x.serviceName`, and a
second `Unregister x` with the record already absent still succeeds. -/
theorem unregister_removes_instance
    (fssd fssd2 : fileSystemServiceDiscovery) (x : ServiceInstance)
    (hwf : StoreWF fssd.store)
    (h : fssd.Unregister x = .ok fssd2) :
    (∀ i ∈ fssd2.GetInstances x.serviceName,
       getServiceInstanceId i ≠ getServiceInstanceId x) ∧
    (∃ fssd3, fssd2.Unregister x = .ok fssd3) := by
  simp only [fileSystemServiceDiscovery.Unregister] at h
  injection h with h
  subst h
  refine ⟨?_, ⟨_, rfl⟩⟩
  intro i hi heq
  unfold fileSystemServiceDiscovery.GetInstances Store.getConfigKeysByGroup
    at hi
  obtain ⟨k, _, hread⟩ := mem_getInstancesImpl.mp hi
  unfold Store.getProperties at hread
  cases hlk : lookupA (Store.removeConfig fssd.store (getServiceInstanceId x)
      (getServiceName x)).entries (x.serviceName, k) with
  | none => rw [hlk] at hread; simp at hread
  | some c =>
    rw [hlk] at hread
    simp only [Except.ok.injEq] at hread
    subst hread
    have hmem := lookupA_eq_some_mem hlk
    simp only [Store.removeConfig, eraseA, List.mem_filter] at hmem
    obtain ⟨hmem, hne⟩ := hmem
    have hwfe := hwf _ hmem
    simp only [entryWF, decide_eq_true_eq] at hwfe
    rw [heq] at hwfe
    simp only [ne_eq, decide_eq_true_eq, getServiceName] at hne
    exact hne (by rw [← hwfe])

/-- Witness for C6: unregistering the `Greeter` scenario instance from the
well-formed state that registered it leaves no instance with its derived id,
and unregistering again still succeeds. -/
theorem unregister_removes_instance_witness :
    (∀ i ∈ greeterUnregistered.GetInstances greeterInstance.serviceName,
       getServiceInstanceId i ≠ getServiceInstanceId greeterInstance) ∧
    (∃ fssd3, greeterUnregistered.Unregister greeterInstance = .ok fssd3) :=
  unregister_removes_instance greeterRegistered greeterUnregistered
    greeterInstance (by decide) rfl

/-- C7: `GetInstances` returns the empty sequence whenever the group key
listing fails or lists no keys; and over any key list it returns exactly the
instances whose per-record read and JSON decode succeed — a corrupted or
unreadable record is skipped without failing the call, as the concrete
mixed store (one corrupt record, one valid record) shows. -/
theorem getInstances_partial_failure :
    (∀ (e : String) (gp : String → Except String Content),
      getInstancesImpl (.error e) gp = []) ∧
    (∀ gp : String → Except String Content,
      getInstancesImpl (.ok []) gp = []) ∧
    (∀ (ks : List String) (gp : String → Except String Content)
       (si : ServiceInstance),
      si ∈ getInstancesImpl (.ok ks) gp ↔
        ∃ id, id ∈ ks ∧ gp id = .ok (Content.json si)) ∧
    (mixedClient.GetInstances "Greeter" = [greeterInstance]) :=
  ⟨fun _ _ => rfl, fun _ => rfl, fun _ _ _ => mem_getInstancesImpl, rfl⟩

/-- C8: an instance with an empty id field is stored and looked up under the
derived key `host + "." + port` (decimal port), a non-empty id is used
unchanged, and registering the empty-id instance at host `10.0.0.1`, port
8080 stores it under the group key `10.0.0.1.8080`. -/
theorem serviceInstanceId_derivation :
    (∀ si : ServiceInstance, si.id = "" →
      getServiceInstanceId si = si.host ++ "." ++ toString si.port) ∧
    (∀ si : ServiceInstance, si.id ≠ "" →
      getServiceInstanceId si = si.id) ∧
    (getServiceInstanceId ⟨"", "svc", "10.0.0.1", 8080, [], true⟩ =
      "10.0.0.1.8080") ∧
    (∀ (fssd fssd2 : fileSystemServiceDiscovery) (x : ServiceInstance),
      x.id = "" → x.host = "10.0.0.1" → x.port = 8080 →
      fssd.Register x = .ok fssd2 →
      "10.0.0.1.8080" ∈ fssd2.store.keysByGroup x.serviceName) := by
  refine ⟨?_, ?_, by decide, ?_⟩
  · intro si h
    simp [getServiceInstanceId, h]
  · intro si h
    simp [getServiceInstanceId, h]
  · intro fssd fssd2 x hid hhost hport h
    simp only [fileSystemServiceDiscovery.Register, getContent] at h
    injection h with h
    subst h
    have hkey : getServiceInstanceId x = "10.0.0.1.8080" := by
      simp only [getServiceInstanceId, hid, hhost, hport, if_pos]
      decide
    simp only [getServiceName]
    rw [← hkey]
    exact keysByGroup_publish_self _ _ _ _

/-- Witness for C8: the derivation formula at a concrete empty-id instance,
the unchanged non-empty id at a concrete named instance, and the stored key
`10.0.0.1.8080` after registering the concrete empty-id instance on an
empty client. -/
theorem serviceInstanceId_derivation_witness :
    (getServiceInstanceId ⟨"", "s", "h1", 7, [], false⟩ =
      "h1" ++ "." ++ toString (7 : Int)) ∧
    (getServiceInstanceId ⟨"abc", "s", "h1", 7, [], false⟩ = "abc") ∧
    ("10.0.0.1.8080" ∈
      (⟨⟨[(("svc", "10.0.0.1.8080"),
           Content.json ⟨"", "svc", "10.0.0.1", 8080, [], true⟩)]⟩,
         sampleRoot,
         [("10.0.0.1.8080", "/root/.dubbo/registry/svc/10.0.0.1.8080")]⟩ :
        fileSystemServiceDiscovery).store.keysByGroup "svc") :=
  ⟨serviceInstanceId_derivation.1 _ rfl,
   serviceInstanceId_derivation.2.1 _ (by decide),
   serviceInstanceId_derivation.2.2.2 emptyClient
     ⟨⟨[(("svc", "10.0.0.1.8080"),
         Content.json ⟨"", "svc", "10.0.0.1", 8080, [], true⟩)]⟩, sampleRoot,
       [("10.0.0.1.8080", "/root/.dubbo/registry/svc/10.0.0.1.8080")]⟩
     ⟨"", "svc", "10.0.0.1", 8080, [], true⟩ rfl rfl rfl rfl⟩

/-- C9: `Update` is extensionally equal to `Register`: on every client state
and instance it returns the identical result, and the instrumented step
semantics of the two operations coincide (same state change, same
notifications). -/
theorem update_is_register :
    ∀ (fssd : fileSystemServiceDiscovery) (ins : ServiceInstance),
      fssd.Update ins = fssd.Register ins ∧
      fssd.step (Op.update ins) = fssd.step (Op.register ins) :=
  fun _ _ => ⟨rfl, rfl⟩

end DubboGo
